import Mathlib

/-!
Verification development for the natality dashboard (`app.py`).

The file shallowly embeds the module-level pipeline of `app.py`:
raw CSV frame loading and normalization (lines 16-48), the sidebar
filter engine (lines 55-74), the empty-result guard and rendering
(lines 76-109), the chat-context aggregates (lines 136-167) and the
chat submission bookkeeping (lines 128-213).  Machine floats carrying
integral counts are modelled as `Int`; pandas missing values (`NaN`)
in categorical columns are modelled as `Option.none`.
-/

/-! ## Raw frame model (lines 16-48 of `app.py`) -/

/-- A raw tabular cell as produced by `pd.read_csv`: a string, a number,
or a missing value (`NaN`). -/
inductive Cell where
  | str : String → Cell
  | num : Int → Cell
  | na : Cell
deriving DecidableEq

/-- A raw data frame: column names plus rows of cells, positionally
aligned with the column list. -/
structure Frame where
  cols : List String
  rows : List (List Cell)
deriving DecidableEq

/-- Drop leading and trailing whitespace characters (Python `str.strip`). -/
def stripChars (l : List Char) : List Char :=
  ((l.dropWhile Char.isWhitespace).reverse.dropWhile Char.isWhitespace).reverse

/-- `c.strip().lower().replace(" ", "_")` from line 31 of `app.py`,
character by character (the replaced pattern is the single space). -/
def normalizeColName (c : String) : String :=
  String.mk ((stripChars c.data).map (fun ch =>
    if ch.toLower = ' ' then '_' else ch.toLower))

/-- The fixed list of required columns (lines 33-40). -/
def requiredCols : List String :=
  ["state_of_residence", "month", "month_code", "year_code", "sex_of_infant", "births"]

/-- `[c for c in required_cols if c not in df.columns]` (line 42). -/
def missingCols (f : Frame) : List String :=
  requiredCols.filter (fun c => !(f.cols.contains c))

/-- Accumulating decimal-digit parser; fails on any non-digit. -/
def parseDigitsAux : List Char → Nat → Option Nat
  | [], acc => some acc
  | c :: cs, acc =>
      if c.isDigit then parseDigitsAux cs (acc * 10 + (c.toNat - 48)) else none

/-- Parse a non-empty all-digit character list as a natural number. -/
def parseDigits : List Char → Option Nat
  | [] => none
  | c :: cs => parseDigitsAux (c :: cs) 0

/-- Parse an optionally negated integer literal, tolerating surrounding
whitespace; `none` on anything unparseable. -/
def parseIntStr (s : String) : Option Int :=
  match stripChars s.data with
  | [] => none
  | c :: cs =>
      if c = '-' then (parseDigits cs).map (fun n => -(n : Int))
      else (parseDigits (c :: cs)).map (fun n => (n : Int))

/-- `pd.to_numeric(·, errors="coerce")` on one cell (line 47): numbers
pass through, numeric strings parse, everything else becomes missing. -/
def toNumeric : Cell → Option Int
  | Cell.num n => some n
  | Cell.str s => parseIntStr s
  | Cell.na => none

/-- Is a cell the missing value (`pd.isna`)? -/
def isna : Cell → Bool
  | Cell.na => true
  | _ => false

/-- Replace the numeric-coercion result back into cell form. -/
def coerceCell (c : Cell) : Cell :=
  match toNumeric c with
  | some n => Cell.num n
  | none => Cell.na

/-- Column renaming step (line 31 applied to every column name). -/
def renameCols (f : Frame) : Frame :=
  ⟨f.cols.map normalizeColName, f.rows⟩

/-- `df["births"] = pd.to_numeric(df["births"], errors="coerce")` (line 47). -/
def coerceBirths (f : Frame) : Frame :=
  ⟨f.cols, f.rows.map (fun r =>
    r.set (f.cols.indexOf "births")
      (coerceCell (r.getD (f.cols.indexOf "births") Cell.na)))⟩

/-- `df = df.dropna(subset=["births"])` (line 48). -/
def dropnaBirths (f : Frame) : Frame :=
  ⟨f.cols, f.rows.filter (fun r =>
    !(isna (r.getD (f.cols.indexOf "births") Cell.na)))⟩

/-- The full normalization pipeline on a frame that passed the
required-column check (lines 31, 47, 48). -/
def normalizeFrame (f : Frame) : Frame :=
  dropnaBirths (coerceBirths (renameCols f))

/-- Outcome of the load-and-normalize prefix of the script: a fatal
error halt (with its message, or the missing-column list shown in the
error of line 44), or the clean frame. -/
inductive LoadResult where
  | fatalMsg : String → LoadResult
  | fatalMissing : List String → LoadResult
  | ok : Frame → LoadResult
deriving DecidableEq

/-- Lines 24-48 of `app.py`: `load_data()` returning `None` is modelled
by the `Option` argument; `None` halts with the line-27 error message,
a missing required column halts with the line-44 error, otherwise the
normalized frame is produced. -/
def loadAndNormalize (raw : Option Frame) : LoadResult :=
  match raw with
  | none => LoadResult.fatalMsg "Dataset file not found in repository."
  | some f0 =>
      if missingCols (renameCols f0) = [] then
        LoadResult.ok (normalizeFrame f0)
      else
        LoadResult.fatalMissing (missingCols (renameCols f0))

/-! ## Normalized row model and the filter engine (lines 55-78) -/

/-- One row of the normalized frame, with the six required columns.
Categorical cells may be missing (`none`); `births` is numeric and
never missing after `dropna` (line 48). -/
structure Row where
  state_of_residence : Option String
  month : Option String
  month_code : Option String
  year_code : Option String
  sex_of_infant : Option String
  births : Int
deriving DecidableEq

/-- `Series.isin(sel)` on one cell: a missing value matches nothing
(the selection lists hold genuine strings only). -/
def isinOpt (v : Option String) (sel : List String) : Bool :=
  match v with
  | some s => sel.contains s
  | none => false

/-- Lines 67-68: restrict by state unless "All" is among the choices. -/
def filterState (df : List Row) (sel : List String) : List Row :=
  if "All" ∈ sel then df
  else df.filter (fun r => isinOpt r.state_of_residence sel)

/-- Lines 70-71: restrict by gender unless "All" is among the choices. -/
def filterGender (df : List Row) (sel : List String) : List Row :=
  if "All" ∈ sel then df
  else df.filter (fun r => isinOpt r.sex_of_infant sel)

/-- Lines 73-74: restrict by month unless "All" is among the choices. -/
def filterMonth (df : List Row) (sel : List String) : List Row :=
  if "All" ∈ sel then df
  else df.filter (fun r => isinOpt r.month sel)

/-- Lines 65-74: the three sequential narrowing steps. -/
def applyFilters (df : List Row) (stateSel genderSel monthSel : List String) : List Row :=
  filterMonth (filterGender (filterState df stateSel) genderSel) monthSel

/-- Ascending order on strings, used by Python `sorted`. -/
def strLe (a b : String) : Prop := a ≤ b

instance : DecidableRel strLe := fun a b => inferInstanceAs (Decidable (a ≤ b))

/-- `sorted(df[col].dropna().unique())` (lines 57-59): distinct
non-missing values, sorted ascending. -/
def colOptions (key : Row → Option String) (df : List Row) : List String :=
  ((df.filterMap key).dedup).insertionSort strLe

/-- Line 57: the offered state options. -/
def stateOptions (df : List Row) : List String := colOptions Row.state_of_residence df

/-- Line 58: the offered gender options. -/
def genderOptions (df : List Row) : List String := colOptions Row.sex_of_infant df

/-- Line 59: the offered month options. -/
def monthOptions (df : List Row) : List String := colOptions Row.month df

/-! ## Aggregation (lines 85-89 and 136-155) -/

/-- Sum of the measure column over a list of rows
(`frame["births"].sum()`). -/
def sumBirths (l : List Row) : Int := (l.map Row.births).sum

/-- `l.groupby(key)["births"].sum()`: pandas drops rows whose group key
is missing, collects the distinct keys sorted ascending, and sums the
measure within each group. -/
def groupbySum {α : Type} [DecidableEq α] (le : α → α → Prop) [DecidableRel le]
    (key : Row → Option α) (l : List Row) : List (α × Int) :=
  (((l.filterMap key).dedup).insertionSort le).map
    (fun k => (k, sumBirths (l.filter (fun r => decide (key r = some k)))))

/-- The descending-value order used by
`.sort_values(ascending=False)` (line 141). -/
def descVal (a b : String × Int) : Prop := b.2 ≤ a.2

instance : DecidableRel descVal := fun a b => inferInstanceAs (Decidable (b.2 ≤ a.2))

instance : IsTotal (String × Int) descVal := ⟨fun a b => Int.le_total b.2 a.2⟩

instance : IsTrans (String × Int) descVal := ⟨fun a b c h1 h2 => le_trans h2 h1⟩

/-- Stable descending sort of (key, total) pairs by total. -/
def sortValuesDesc (l : List (String × Int)) : List (String × Int) :=
  l.insertionSort descVal

/-- Lines 138-143: per-state totals, ordered by descending total; the
association-list order models Python dict insertion order. -/
def stateTotals (l : List Row) : List (String × Int) :=
  sortValuesDesc (groupbySum strLe Row.state_of_residence l)

/-- Lines 145-149: per-gender totals. -/
def genderTotals (l : List Row) : List (String × Int) :=
  groupbySum strLe Row.sex_of_infant l

/-- Lines 151-155: per-month totals. -/
def monthlyTotals (l : List Row) : List (String × Int) :=
  groupbySum strLe Row.month l

/-- Lexicographic order on string pairs for the two-key groupby. -/
def lexLe (a b : String × String) : Prop :=
  a.1 < b.1 ∨ (a.1 = b.1 ∧ a.2 ≤ b.2)

instance : DecidableRel lexLe :=
  fun a b => inferInstanceAs (Decidable (a.1 < b.1 ∨ (a.1 = b.1 ∧ a.2 ≤ b.2)))

/-- The two-column group key of line 86; missing in either column drops
the row from the grouped result. -/
def key2 (r : Row) : Option (String × String) :=
  match r.state_of_residence, r.sex_of_infant with
  | some s, some g => some (s, g)
  | _, _ => none

/-- Lines 85-89: `filtered.groupby(["state_of_residence",
"sex_of_infant"])["births"].sum()`. -/
def aggStateGender (l : List Row) : List ((String × String) × Int) :=
  groupbySum lexLe key2 l

/-! ## Rendering trace (lines 55-109) -/

/-- One chat turn (an element of `st.session_state.messages`). -/
structure Turn where
  role : String
  content : String
deriving DecidableEq

/-- A UI effect emitted by the script on one run. -/
inductive Effect where
  | control : String → List String → Effect
  | warn : String → Effect
  | chart : List ((String × String) × Int) → Effect
  | table : List Row → Effect
  | chatSection : Effect
deriving DecidableEq

/-- Lines 61-63: the three sidebar multiselect controls, each offering
"All" plus the observed values. -/
def controlsOf (df : List Row) : List Effect :=
  [Effect.control "State" ("All" :: stateOptions df),
   Effect.control "Gender" ("All" :: genderOptions df),
   Effect.control "Month" ("All" :: monthOptions df)]

/-- Lines 55-117 after normalization: render the controls, then either
warn and stop (lines 76-78) when the filtered frame is empty, or
render the chart, the table and the chat section. -/
def renderPage (df : List Row) (stateSel genderSel monthSel : List String) : List Effect :=
  if (applyFilters df stateSel genderSel monthSel).isEmpty then
    controlsOf df ++ [Effect.warn "No data matches selected filters."]
  else
    controlsOf df ++
      [Effect.chart (aggStateGender (applyFilters df stateSel genderSel monthSel)),
       Effect.table (applyFilters df stateSel genderSel monthSel),
       Effect.chatSection]

/-! ## Chat submission (lines 128-213) -/

/-- Line 208: the fixed fallback reply. -/
def fallbackReply : String := "The AI analyst is currently unavailable."

/-- Lines 128-213 for one submission: append the user turn (line 130);
the whole remote request and response parsing of the `try` block
(lines 188-205) is abstracted as an `Except`-valued outcome, any
exception collapsing to `Except.error ()` and replaced by the fallback
(lines 207-208); append the assistant turn (line 213). -/
def chatSubmit (messages : List Turn) (userInput : String)
    (remote : Except Unit String) : List Turn :=
  (messages ++ [⟨"user", userInput⟩]) ++
    [⟨"assistant", match remote with
      | Except.ok s => s
      | Except.error _ => fallbackReply⟩]

/-! ## Sample data for concrete evaluations -/

/-- A California row. -/
def rowCA : Row := ⟨some "CA", some "January", some "1", some "2025", some "M", 100⟩

/-- A Texas row. -/
def rowTX : Row := ⟨some "TX", some "February", some "2", some "2025", some "M", 50⟩

/-- A row whose state and gender are missing. -/
def rowNullKeys : Row := ⟨none, some "January", some "1", some "2025", none, 5⟩

/-- A well-formed raw frame with one clean row. -/
def frameOK : Frame :=
  ⟨["State of Residence", "Month", "Month Code", "Year Code", "Sex of Infant", "Births"],
   [[Cell.str "CA", Cell.str "January", Cell.str "1", Cell.str "2025",
     Cell.str "M", Cell.str "100"]]⟩

/-- A raw frame whose births cell parses to a negative number. -/
def frameNeg : Frame :=
  ⟨["State of Residence", "Month", "Month Code", "Year Code", "Sex of Infant", "Births"],
   [[Cell.str "CA", Cell.str "January", Cell.str "1", Cell.str "2025",
     Cell.str "M", Cell.str "-3"]]⟩

/-- A raw frame missing five of the six required columns. -/
def frameMissing : Frame := ⟨["Births"], []⟩

/-! ## Helper lemmas -/

/-- Membership in one narrowing step, state dimension. -/
theorem mem_filterState (df : List Row) (sel : List String) (r : Row) :
    r ∈ filterState df sel ↔
      r ∈ df ∧ ("All" ∈ sel ∨ isinOpt r.state_of_residence sel = true) := by
  unfold filterState
  split_ifs with h <;> simp [List.mem_filter, h]

/-- Membership in one narrowing step, gender dimension. -/
theorem mem_filterGender (df : List Row) (sel : List String) (r : Row) :
    r ∈ filterGender df sel ↔
      r ∈ df ∧ ("All" ∈ sel ∨ isinOpt r.sex_of_infant sel = true) := by
  unfold filterGender
  split_ifs with h <;> simp [List.mem_filter, h]

/-- Membership in one narrowing step, month dimension. -/
theorem mem_filterMonth (df : List Row) (sel : List String) (r : Row) :
    r ∈ filterMonth df sel ↔
      r ∈ df ∧ ("All" ∈ sel ∨ isinOpt r.month sel = true) := by
  unfold filterMonth
  split_ifs with h <;> simp [List.mem_filter, h]

/-- Full membership characterization of the filter engine. -/
theorem mem_applyFilters (df : List Row) (s g m : List String) (r : Row) :
    r ∈ applyFilters df s g m ↔
      r ∈ df ∧ ("All" ∈ s ∨ isinOpt r.state_of_residence s = true)
            ∧ ("All" ∈ g ∨ isinOpt r.sex_of_infant g = true)
            ∧ ("All" ∈ m ∨ isinOpt r.month m = true) := by
  unfold applyFilters
  rw [mem_filterMonth, mem_filterGender, mem_filterState]
  tauto

/-- Each narrowing step yields a sublist of its input. -/
theorem sublist_step (df : List Row) (p : Row → Bool) (c : Prop) [Decidable c] :
    (if c then df else df.filter p).Sublist df := by
  split_ifs
  · exact List.Sublist.refl df
  · exact List.filter_sublist df

/-- The filtered frame is a sublist of the full frame. -/
theorem applyFilters_sublist (df : List Row) (s g m : List String) :
    (applyFilters df s g m).Sublist df := by
  unfold applyFilters filterMonth filterGender filterState
  exact (sublist_step _ _ _).trans ((sublist_step _ _ _).trans (sublist_step _ _ _))

/-- Sum of the measure over a sublist is bounded by the full sum when
every measure value is non-negative. -/
theorem sublist_sumBirths_le (l1 l2 : List Row) (h : l1.Sublist l2)
    (hn : ∀ r ∈ l2, 0 ≤ r.births) : sumBirths l1 ≤ sumBirths l2 := by
  induction h with
  | slnil => exact le_refl 0
  | @cons t1 t2 a h ih =>
      have h0 : 0 ≤ a.births := hn a (List.mem_cons_self a t2)
      have ht := ih (fun r hr => hn r (List.mem_cons_of_mem a hr))
      have he : sumBirths (a :: t2) = a.births + sumBirths t2 := by simp [sumBirths]
      rw [he]
      omega
  | @cons₂ t1 t2 a h ih =>
      have ht := ih (fun r hr => hn r (List.mem_cons_of_mem a hr))
      have he1 : sumBirths (a :: t1) = a.births + sumBirths t1 := by simp [sumBirths]
      have he2 : sumBirths (a :: t2) = a.births + sumBirths t2 := by simp [sumBirths]
      rw [he1, he2]
      omega

/-- Sum of a pointwise addition splits. -/
theorem sum_map_add {α : Type} (l : List α) (f g : α → Int) :
    (l.map (fun a => f a + g a)).sum = (l.map f).sum + (l.map g).sum := by
  induction l with
  | nil => simp
  | cons a t ih => simp [ih]; ring

/-- Summing an indicator over a list avoiding the key gives zero. -/
theorem sum_ite_notmem {α : Type} [DecidableEq α] (ks : List α) (k0 : α) (c : Int)
    (h : k0 ∉ ks) : (ks.map (fun k => if k0 = k then c else 0)).sum = 0 := by
  induction ks with
  | nil => simp
  | cons k t ih =>
      have hne : k0 ≠ k := fun he => h (he ▸ List.mem_cons_self k t)
      have ht : k0 ∉ t := fun hm => h (List.mem_cons_of_mem k hm)
      simp [hne, ih ht]

/-- Summing an indicator over a duplicate-free list containing the key
yields the indicated value once. -/
theorem sum_ite_single {α : Type} [DecidableEq α] (ks : List α) (k0 : α) (c : Int)
    (hnd : ks.Nodup) (hk : k0 ∈ ks) :
    (ks.map (fun k => if k0 = k then c else 0)).sum = c := by
  induction ks with
  | nil => cases hk
  | cons k t ih =>
      rcases List.mem_cons.mp hk with he | hm
      · subst he
        have ht : k0 ∉ t := (List.nodup_cons.mp hnd).1
        simp [sum_ite_notmem t k0 c ht]
      · have hne : k0 ≠ k := by
          intro he
          exact (List.nodup_cons.mp hnd).1 (he ▸ hm)
        simp [hne, ih (List.nodup_cons.mp hnd).2 hm]

/-- Measure sum of a cons. -/
theorem sumBirths_cons (r : Row) (t : List Row) :
    sumBirths (r :: t) = r.births + sumBirths t := by
  simp [sumBirths]

/-- Grouping a list of rows by a duplicate-free key list covering every
row partitions the measure sum. -/
theorem partition_sum {α : Type} [DecidableEq α] (key : Row → Option α)
    (ks : List α) (l : List Row) (hnd : ks.Nodup)
    (hcov : ∀ r ∈ l, ∃ k, key r = some k ∧ k ∈ ks) :
    (ks.map (fun k => sumBirths (l.filter (fun r => decide (key r = some k))))).sum
      = sumBirths l := by
  induction l with
  | nil => simp [sumBirths]
  | cons r t ih =>
      obtain ⟨k0, hk0, hk0m⟩ := hcov r (List.mem_cons_self r t)
      have hstep : ∀ k : α,
          sumBirths ((r :: t).filter (fun x => decide (key x = some k)))
            = (if k0 = k then r.births else 0)
              + sumBirths (t.filter (fun x => decide (key x = some k))) := by
        intro k
        rw [List.filter_cons]
        by_cases he : k0 = k
        · subst he
          simp [hk0, sumBirths_cons]
        · have : ¬ (key r = some k) := by
            rw [hk0]
            simp
            exact he
          simp [this, he]
      have hmap : ((r :: t).map (fun x => Row.births x)).sum
          = r.births + sumBirths t := by simp [sumBirths]
      calc (ks.map (fun k =>
              sumBirths ((r :: t).filter (fun x => decide (key x = some k))))).sum
          = (ks.map (fun k => (if k0 = k then r.births else 0)
              + sumBirths (t.filter (fun x => decide (key x = some k))))).sum := by
            congr 1
            exact List.map_congr_left (fun k _ => hstep k)
        _ = (ks.map (fun k => if k0 = k then r.births else 0)).sum
            + (ks.map (fun k =>
                sumBirths (t.filter (fun x => decide (key x = some k))))).sum :=
            sum_map_add ks _ _
        _ = r.births + sumBirths t := by
            rw [sum_ite_single ks k0 r.births hnd hk0m,
              ih (fun x hx => hcov x (List.mem_cons_of_mem r hx))]
        _ = sumBirths (r :: t) := (sumBirths_cons r t).symm

/-- The grouped totals of `groupbySum` sum to the full measure sum when
no row has a missing group key. -/
theorem groupbySum_total {α : Type} [DecidableEq α] (le : α → α → Prop)
    [DecidableRel le] (key : Row → Option α) (l : List Row)
    (h : ∀ r ∈ l, key r ≠ none) :
    ((groupbySum le key l).map Prod.snd).sum = sumBirths l := by
  unfold groupbySum
  rw [List.map_map]
  have hks : (((l.filterMap key).dedup).insertionSort le).Nodup :=
    (List.perm_insertionSort le _).nodup_iff.mpr (List.nodup_dedup _)
  have hcov : ∀ r ∈ l, ∃ k, key r = some k
      ∧ k ∈ ((l.filterMap key).dedup).insertionSort le := by
    intro r hr
    cases hk : key r with
    | none => exact absurd hk (h r hr)
    | some k =>
        refine ⟨k, rfl, ?_⟩
        rw [List.mem_insertionSort, List.mem_dedup, List.mem_filterMap]
        exact ⟨r, hr, hk⟩
  exact partition_sum key _ l hks hcov

/-- `getD` after `set` at an in-range index returns the new value. -/
theorem getD_set_self_of_lt {α : Type} (l : List α) (i : Nat) (v d : α)
    (h : i < l.length) : (l.set i v).getD i d = v := by
  induction l generalizing i with
  | nil => simp at h
  | cons a t ih =>
      cases i with
      | zero => rfl
      | succ j => exact ih j (by simpa using h)

/-- `set` past the end of a list leaves it unchanged. -/
theorem set_of_length_le {α : Type} (l : List α) (i : Nat) (v : α)
    (h : l.length ≤ i) : l.set i v = l := by
  induction l generalizing i with
  | nil => rfl
  | cons a t ih =>
      cases i with
      | zero => simp at h
      | succ j =>
          show a :: t.set j v = a :: t
          rw [ih j (by simpa using h)]

/-- The offered options of a dimension are exactly the values observed
in some row of that column. -/
theorem mem_colOptions (key : Row → Option String) (df : List Row) (v : String) :
    v ∈ colOptions key df ↔ ∃ x ∈ df, key x = some v := by
  unfold colOptions
  rw [List.mem_insertionSort, List.mem_dedup, List.mem_filterMap]

/-! ## Claims -/

/-- Claim C1: for every dataset and every triple of selections, a row is
in the filtered output iff it is a row of the dataset and, for each of
the three dimensions independently, either "All" is among the chosen
values (no restriction) or the row's value in that column is a member of
the selection; the three restrictions compose by logical AND. -/
theorem claim1_filter_semantics (df : List Row) (s g m : List String) (r : Row) :
    r ∈ applyFilters df s g m ↔
      r ∈ df ∧ ("All" ∈ s ∨ isinOpt r.state_of_residence s = true)
            ∧ ("All" ∈ g ∨ isinOpt r.sex_of_infant g = true)
            ∧ ("All" ∈ m ∨ isinOpt r.month m = true) :=
  mem_applyFilters df s g m r

/-- Claim C2 counterexample: a raw frame that passes the required-column
check but whose births cell reads "-3" is retained by normalization with
the negative measure value -3, refuting the non-negativity part of the
claimed postcondition. -/
theorem claim2_counterexample :
    missingCols (renameCols frameNeg) = [] ∧
    (normalizeFrame frameNeg).rows =
      [[Cell.str "CA", Cell.str "January", Cell.str "1", Cell.str "2025",
        Cell.str "M", Cell.num (-3)]] ∧
    ¬ (0 ≤ (-3 : Int)) := by
  refine ⟨by decide, by decide, by decide⟩

/-- Claim C2 (amended): for every raw frame accepted by the required-column
check, after normalization all six required columns are present and every
retained row's measure cell is a parsed number (rows whose measure fails
numeric coercion are discarded); the code enforces no sign condition. -/
theorem claim2_normalizer_postcondition (f : Frame)
    (h : missingCols (renameCols f) = []) :
    (∀ c ∈ requiredCols, c ∈ (normalizeFrame f).cols) ∧
    (∀ r ∈ (normalizeFrame f).rows,
      ∃ n : Int,
        r.getD ((normalizeFrame f).cols.indexOf "births") Cell.na = Cell.num n) := by
  constructor
  · intro c hc
    by_contra hcn
    have hcols : (normalizeFrame f).cols = (renameCols f).cols := rfl
    rw [hcols] at hcn
    have hmem : c ∈ missingCols (renameCols f) :=
      List.mem_filter.mpr ⟨hc, by simp [hcn]⟩
    rw [h] at hmem
    exact List.not_mem_nil c hmem
  · intro r hr
    simp only [normalizeFrame, dropnaBirths, coerceBirths, renameCols] at hr ⊢
    rw [List.mem_filter] at hr
    obtain ⟨hmem, hpred⟩ := hr
    rw [List.mem_map] at hmem
    obtain ⟨r0, hr0, rfl⟩ := hmem
    by_cases hlen :
        (f.cols.map normalizeColName).indexOf "births" < r0.length
    · rw [getD_set_self_of_lt r0 _ _ Cell.na hlen] at hpred ⊢
      cases h2 : toNumeric (r0.getD ((f.cols.map normalizeColName).indexOf "births") Cell.na) with
      | some n =>
          refine ⟨n, ?_⟩
          unfold coerceCell
          rw [h2]
      | none =>
          unfold coerceCell at hpred
          rw [h2] at hpred
          simp [isna] at hpred
    · push_neg at hlen
      rw [set_of_length_le r0 _ _ hlen] at hpred
      rw [List.getD_eq_default _ _ hlen] at hpred
      simp [isna] at hpred

/-- Claim C2 witness: the clean sample frame passes the check and retains
the births column. -/
theorem claim2_witness : "births" ∈ (normalizeFrame frameOK).cols :=
  (claim2_normalizer_postcondition frameOK (by decide)).1 "births" (by decide)

/-- Claim C3: under the data-model invariant that every measure value is
non-negative, the filtered frame is a subset of the rows of the full
frame, and the measure sum over the filtered frame never exceeds the
measure sum over the full frame. -/
theorem claim3_monotonicity (df : List Row) (s g m : List String)
    (hn : ∀ r ∈ df, 0 ≤ r.births) :
    (∀ r ∈ applyFilters df s g m, r ∈ df) ∧
    sumBirths (applyFilters df s g m) ≤ sumBirths df :=
  ⟨fun r hr => (applyFilters_sublist df s g m).subset hr,
   sublist_sumBirths_le _ df (applyFilters_sublist df s g m) hn⟩

/-- Claim C3 witness: restricting the two-row sample to California keeps
its total at or below the full total. -/
theorem claim3_witness :
    sumBirths (applyFilters [rowCA, rowTX] ["CA"] ["All"] ["All"])
      ≤ sumBirths [rowCA, rowTX] :=
  (claim3_monotonicity [rowCA, rowTX] ["CA"] ["All"] ["All"] (by decide)).2

/-- Claim C4: whenever a dimension's selection contains the "All"
sentinel, the filtered output equals the output for any other selection
of that dimension that also contains "All" (in particular the
unrestricted one), so the other values chosen in that dimension do not
affect the output. -/
theorem claim4_all_identity (df : List Row) (s s2 g g2 m m2 : List String) :
    ("All" ∈ s → "All" ∈ s2 →
      applyFilters df s g m = applyFilters df s2 g m) ∧
    ("All" ∈ g → "All" ∈ g2 →
      applyFilters df s g m = applyFilters df s g2 m) ∧
    ("All" ∈ m → "All" ∈ m2 →
      applyFilters df s g m = applyFilters df s g m2) := by
  refine ⟨fun h1 h2 => ?_, fun h1 h2 => ?_, fun h1 h2 => ?_⟩ <;>
    simp [applyFilters, filterState, filterGender, filterMonth, h1, h2]

/-- Claim C4 witness: adding "CA" beside "All" changes nothing. -/
theorem claim4_witness :
    applyFilters [rowCA, rowTX] ["All", "CA"] ["All"] ["All"]
      = applyFilters [rowCA, rowTX] ["All"] ["All"] ["All"] :=
  (claim4_all_identity [rowCA, rowTX] ["All", "CA"] ["All"] ["All"] ["All"]
    ["All"] ["All"]).1 (by decide) (by decide)

/-- Claim C5 counterexample: a non-empty filtered frame whose single row
has missing state and gender has grand total 5, while the per-state and
per-gender totals both sum to 0, because pandas groupby drops missing
group keys; so the claimed equalities fail. -/
theorem claim5_counterexample :
    applyFilters [rowNullKeys] ["All"] ["All"] ["All"] ≠ [] ∧
    sumBirths (applyFilters [rowNullKeys] ["All"] ["All"] ["All"]) = 5 ∧
    ((stateTotals (applyFilters [rowNullKeys] ["All"] ["All"] ["All"])).map
      Prod.snd).sum = 0 ∧
    ((genderTotals (applyFilters [rowNullKeys] ["All"] ["All"] ["All"])).map
      Prod.snd).sum = 0 ∧
    (5 : Int) ≠ 0 := by
  refine ⟨by decide, by decide, by decide, by decide, by decide⟩

/-- Claim C5 (amended): for every non-empty filtered frame in which no
row has a missing state or gender value, the grand total placed in the
chat context equals the sum of the per-state totals and equals the sum
of the per-gender totals; rows whose group key is missing are dropped by
the groupby, which forces that restriction. -/
theorem claim5_roundtrip (df : List Row) (s g m : List String) (fl : List Row)
    (hfl : fl = applyFilters df s g m) (hne : fl ≠ [])
    (hs : ∀ r ∈ fl, r.state_of_residence ≠ none)
    (hg : ∀ r ∈ fl, r.sex_of_infant ≠ none) :
    sumBirths fl = ((stateTotals fl).map Prod.snd).sum ∧
    sumBirths fl = ((genderTotals fl).map Prod.snd).sum := by
  constructor
  · rw [stateTotals, sortValuesDesc]
    have hperm :=
      (List.perm_insertionSort descVal
        (groupbySum strLe Row.state_of_residence fl)).map Prod.snd
    rw [hperm.sum_eq]
    exact (groupbySum_total strLe Row.state_of_residence fl hs).symm
  · exact (groupbySum_total strLe Row.sex_of_infant fl hg).symm

/-- Claim C5 witness: on the two clean sample rows with nothing filtered
out, the grand total equals the summed per-state totals. -/
theorem claim5_witness :
    sumBirths (applyFilters [rowCA, rowTX] ["All"] ["All"] ["All"])
      = ((stateTotals (applyFilters [rowCA, rowTX] ["All"] ["All"] ["All"])).map
          Prod.snd).sum :=
  (claim5_roundtrip [rowCA, rowTX] ["All"] ["All"] ["All"]
    (applyFilters [rowCA, rowTX] ["All"] ["All"] ["All"]) rfl
    (by decide) (by decide) (by decide)).1

/-- Claim C6: every chat submission appends exactly one user turn followed
by one assistant turn, so the conversation grows by exactly two turns;
any failure of the remote call (modelled by the `Except` outcome of the
`try` block) is replaced by the fixed fallback string as the assistant
content. -/
theorem claim6_chat_failure (messages : List Turn) (userInput : String)
    (remote : Except Unit String) :
    (chatSubmit messages userInput remote).length = messages.length + 2 ∧
    (∃ reply : String, chatSubmit messages userInput remote =
      messages ++ [⟨"user", userInput⟩, ⟨"assistant", reply⟩]) ∧
    (remote = Except.error () → chatSubmit messages userInput remote =
      messages ++ [⟨"user", userInput⟩, ⟨"assistant", fallbackReply⟩]) := by
  refine ⟨by simp [chatSubmit], ?_, fun h => by simp [chatSubmit, h]⟩
  exact ⟨match remote with
    | Except.ok sr => sr
    | Except.error _ => fallbackReply, by simp [chatSubmit]⟩

/-- Claim C6 witness: a failing submission on an empty conversation
yields exactly the user turn and the fallback assistant turn. -/
theorem claim6_witness :
    chatSubmit [] "question" (Except.error ())
      = [⟨"user", "question"⟩, ⟨"assistant", fallbackReply⟩] := by
  have h := (claim6_chat_failure [] "question" (Except.error ())).2.2 rfl
  simpa using h

/-- Claim C7: when the filtered frame is empty, the page renders only the
sidebar controls followed by the non-fatal warning; no chart, table or
chat section is produced, and the warning is present. -/
theorem claim7_empty_result (df : List Row) (s g m : List String)
    (h : applyFilters df s g m = []) :
    renderPage df s g m
      = controlsOf df ++ [Effect.warn "No data matches selected filters."] ∧
    (∀ a, Effect.chart a ∉ renderPage df s g m) ∧
    (∀ t, Effect.table t ∉ renderPage df s g m) ∧
    Effect.chatSection ∉ renderPage df s g m ∧
    Effect.warn "No data matches selected filters." ∈ renderPage df s g m := by
  have he : renderPage df s g m
      = controlsOf df ++ [Effect.warn "No data matches selected filters."] := by
    simp [renderPage, h]
  refine ⟨he, fun a => ?_, fun t => ?_, ?_, ?_⟩ <;> rw [he] <;> simp [controlsOf]

/-- Claim C7 witness: selecting a state with no matching rows renders
only the controls and the warning. -/
theorem claim7_witness :
    renderPage [rowCA] ["NV"] ["All"] ["All"]
      = controlsOf [rowCA] ++ [Effect.warn "No data matches selected filters."] :=
  (claim7_empty_result [rowCA] ["NV"] ["All"] ["All"] (by decide)).1

/-- Claim C8 counterexample: the fatal message produced on a missing
dataset file is "Dataset file not found in repository.", which is not the
claimed exact message "Dataset file not found.". -/
theorem claim8_counterexample :
    loadAndNormalize none
      = LoadResult.fatalMsg "Dataset file not found in repository." ∧
    "Dataset file not found in repository." ≠ "Dataset file not found." := by
  refine ⟨rfl, by decide⟩

/-- Claim C8 (amended): a missing dataset file makes the loader signal
absence and the system halt fatally with the message "Dataset file not
found in repository." before any frame is produced; missing required
columns after renaming halt fatally carrying the list of the missing
column names. -/
theorem claim8_loader_failure :
    (loadAndNormalize none
      = LoadResult.fatalMsg "Dataset file not found in repository.") ∧
    (∀ f : Frame, missingCols (renameCols f) ≠ [] →
      loadAndNormalize (some f)
        = LoadResult.fatalMissing (missingCols (renameCols f))) := by
  refine ⟨rfl, fun f h => ?_⟩
  simp [loadAndNormalize, h]

/-- Claim C8 witness: a frame with only a births column halts fatally
with the missing-column list. -/
theorem claim8_witness :
    loadAndNormalize (some frameMissing)
      = LoadResult.fatalMissing (missingCols (renameCols frameMissing)) :=
  claim8_loader_failure.2 frameMissing (by decide)

/-- Claim C9: the per-state totals of the chat context enumerate their
entries in descending order of summed measure value (ties unordered);
no ordering is claimed for the per-gender or per-month totals. -/
theorem claim9_state_totals_sorted (df : List Row) (s g m : List String) :
    List.Sorted descVal (stateTotals (applyFilters df s g m)) :=
  List.sorted_insertionSort descVal _

/-- Claim C10: the offered options of each dimension are exactly the
non-missing observed values of that column; a row whose value in a
dimension is missing is excluded whenever that dimension's selection
lacks "All"; and a row with a missing state that passes the other two
dimensions is retained exactly when the state selection contains
"All". -/
theorem claim10_null_rows (df : List Row) (s g m : List String) (r : Row) :
    ((∀ v, v ∈ stateOptions df ↔ ∃ x ∈ df, x.state_of_residence = some v) ∧
     (∀ v, v ∈ genderOptions df ↔ ∃ x ∈ df, x.sex_of_infant = some v) ∧
     (∀ v, v ∈ monthOptions df ↔ ∃ x ∈ df, x.month = some v)) ∧
    (r.state_of_residence = none → "All" ∉ s → r ∉ applyFilters df s g m) ∧
    (r.sex_of_infant = none → "All" ∉ g → r ∉ applyFilters df s g m) ∧
    (r.month = none → "All" ∉ m → r ∉ applyFilters df s g m) ∧
    (r ∈ df → r.state_of_residence = none →
      ("All" ∈ g ∨ isinOpt r.sex_of_infant g = true) →
      ("All" ∈ m ∨ isinOpt r.month m = true) →
      (r ∈ applyFilters df s g m ↔ "All" ∈ s)) := by
  refine ⟨⟨fun v => mem_colOptions _ df v, fun v => mem_colOptions _ df v,
    fun v => mem_colOptions _ df v⟩, ?_, ?_, ?_, ?_⟩
  · intro hnone hAll hmem
    rcases (mem_applyFilters df s g m r).mp hmem with ⟨-, hd, -, -⟩
    rcases hd with hd | hd
    · exact hAll hd
    · rw [hnone] at hd
      simp [isinOpt] at hd
  · intro hnone hAll hmem
    rcases (mem_applyFilters df s g m r).mp hmem with ⟨-, -, hd, -⟩
    rcases hd with hd | hd
    · exact hAll hd
    · rw [hnone] at hd
      simp [isinOpt] at hd
  · intro hnone hAll hmem
    rcases (mem_applyFilters df s g m r).mp hmem with ⟨-, -, -, hd⟩
    rcases hd with hd | hd
    · exact hAll hd
    · rw [hnone] at hd
      simp [isinOpt] at hd
  · intro hdf hnone hgp hmp
    constructor
    · intro hmem
      rcases (mem_applyFilters df s g m r).mp hmem with ⟨-, hd, -, -⟩
      rcases hd with hd | hd
      · exact hd
      · rw [hnone] at hd
        simp [isinOpt] at hd
    · intro hAll
      exact (mem_applyFilters df s g m r).mpr ⟨hdf, Or.inl hAll, hgp, hmp⟩

/-- Claim C10 witness: the null-keyed row is excluded once a concrete
state is selected. -/
theorem claim10_witness :
    rowNullKeys ∉ applyFilters [rowNullKeys] ["CA"] ["All"] ["All"] :=
  (claim10_null_rows [rowNullKeys] ["CA"] ["All"] ["All"] rowNullKeys).2.1
    rfl (by decide)
